import Mathlib

/-!
Verification of the kiss-orm query builder (`src/Query.ts`) and the two
`CrudRepository` implementations against the repository specification.

The embedding translates the TypeScript sources into pure Lean functions:
JavaScript values interpolated into SQL templates become the `Value` type,
query fragments become lists of `QueryPart`, database drivers become records
of pure functions, and methods that `throw` return `Except RepoError`.
-/

namespace KissOrm

/-- A JavaScript value as it appears in query parameters and result rows:
strings, (integer) numbers, `null`, `undefined`, and `QueryIdentifier`
objects (the identifier-wrapper class, which is not a query fragment and is
therefore wrapped as an ordinary parameter by the template constructor). -/
inductive Value where
  | vStr (s : String)
  | vNum (n : Int)
  | vNull
  | vUndefined
  | vIdent (name : String)
deriving DecidableEq

/-- Whether a value is a `QueryIdentifier` marker. -/
def Value.isIdent : Value → Bool
  | .vIdent _ => true
  | _ => false

/-- JavaScript string coercion used in error-message interpolation. -/
def jsDisplay : Value → String
  | .vStr s => s
  | .vNum n => toString n
  | .vNull => "null"
  | .vUndefined => "undefined"
  | .vIdent _ => "[object Object]"

/-- A database row / plain object: an association list from field names to
values. -/
abbrev Row := List (String × Value)

/-- JavaScript property read `obj[key]`: the value stored under `key`, or
`undefined` when absent. -/
def rowGet (m : Row) (k : String) : Value :=
  match m.find? (fun kv => kv.1 == k) with
  | some kv => kv.2
  | none => .vUndefined

/-- Whether the object has an own property named `k`. -/
def containsKey (m : Row) (k : String) : Bool :=
  m.any (fun kv => kv.1 == k)

/-- `Object.assign(target, source)`: fields of `target` overwritten by the
same-named fields of `source`; fields only in `source` are appended in
order. -/
def objAssign (t s : Row) : Row :=
  t.map (fun kv =>
    match s.find? (fun kv2 => kv2.1 == kv.1) with
    | some kv2 => (kv.1, kv2.2)
    | none => kv)
  ++ s.filter (fun kv => !containsKey t kv.1)

/-- A part of a `Query` (src/Query.ts: `type QueryPart = string|QueryParam|Query`):
a literal string, a bound parameter (`QueryParam`), or a nested query. -/
inductive QueryPart where
  | str (s : String)
  | queryParam (v : Value)
  | query (parts : List QueryPart)

/-- A `Query` is its (readonly) list of parts. -/
abbrev Query := List QueryPart

/-- A raw value interpolated into a template: either a `Query` instance or
any other JavaScript value (the `instanceof Query` test in
`createFromTemplateString` distinguishes exactly these two cases). -/
inductive TValue where
  | value (v : Value)
  | query (q : Query)

/-- The part pushed for an interpolated value: a nested query is pushed
as-is, anything else is wrapped in a `QueryParam`. -/
def TValue.toPart : TValue → QueryPart
  | .query q => .query q
  | .value v => .queryParam v

/-- The loop of `createFromTemplateString` over `strings[1..]`: for each
further literal, push the corresponding interpolated value (JavaScript
yields `undefined` when `params` is exhausted) and then the literal. -/
def buildTail : List TValue → List String → Query
  | _, [] => []
  | p :: ps, s :: ss => p.toPart :: .str s :: buildTail ps ss
  | [], s :: ss => .queryParam .vUndefined :: .str s :: buildTail [] ss

/-- `Query.createFromTemplateString` (src/Query.ts, lines 9-26): starts with
the first literal and alternates interpolated values with the remaining
literals. (A JavaScript tagged-template call always passes a non-empty
`strings` array with `strings.length = params.length + 1`.) -/
def Query.createFromTemplateString (strings : List String) (params : List TValue) : Query :=
  match strings with
  | [] => []
  | s0 :: rest => QueryPart.str s0 :: buildTail params rest

/-- The result of compilation: sql text plus ordered bound values. -/
structure CompiledQuery where
  sql : String
  params : List Value
deriving DecidableEq

/-- The loop of `Query.compile` (src/Query.ts, lines 36-43) with the sql and
params accumulators. A `QueryParam` part appends the placeholder for the
current params length and pushes its value; every other part (literal
strings, but also nested `Query` objects, which have no `toString`
override) is string-concatenated onto the sql, a nested query coercing to
"[object Object]". -/
def compileLoop (ph : Nat → String) : Query → String → List Value → CompiledQuery
  | [], sqlAcc, ps => ⟨sqlAcc, ps⟩
  | .queryParam v :: rest, sqlAcc, ps =>
      compileLoop ph rest (sqlAcc ++ ph ps.length) (ps ++ [v])
  | .str s :: rest, sqlAcc, ps => compileLoop ph rest (sqlAcc ++ s) ps
  | .query _ :: rest, sqlAcc, ps =>
      compileLoop ph rest (sqlAcc ++ "[object Object]") ps

/-- `Query.compile` (src/Query.ts, lines 32-46). -/
def Query.compile (q : Query) (ph : Nat → String) : CompiledQuery :=
  compileLoop ph q "" []

/-- Number of non-identifier bound parameters anywhere in a fragment tree
(recursing into nested fragments), the measuring stick of the spec's
parameter-count property. -/
def nonIdentParamCount : List QueryPart → Nat
  | [] => 0
  | .str _ :: rest => nonIdentParamCount rest
  | .queryParam v :: rest => (if v.isIdent then 0 else 1) + nonIdentParamCount rest
  | .query q :: rest => nonIdentParamCount q + nonIdentParamCount rest

/-- Whether a part is a literal string. -/
def isLitPart : QueryPart → Bool
  | .str _ => true
  | _ => false

/-- Alternation after a leading literal: empty, or a non-literal followed by
a literal, repeated. -/
def altTail : List QueryPart → Bool
  | [] => true
  | p :: q :: rest => !isLitPart p && isLitPart q && altTail rest
  | [_] => false

/-- The string-template structure: the parts begin with a literal and then
alternate non-literal / literal, hence also end with a literal. -/
def alternates : List QueryPart → Bool
  | p :: rest => isLitPart p && altTail rest
  | [] => false

/-- Number of literal parts at the top level of a fragment. -/
def litCount : List QueryPart → Nat
  | [] => 0
  | p :: rest => (if isLitPart p then 1 else 0) + litCount rest

/-- Number of parameter/nested parts at the top level of a fragment. -/
def nonLitCount : List QueryPart → Nat
  | [] => 0
  | p :: rest => (if isLitPart p then 0 else 1) + nonLitCount rest

/-- Modelled from the spec: `SqlQuery.join` is not under src/ (only its
callers are). Per the spec it "concatenates a sequence of fragments with a
separator fragment between each, preserving structure": the joined fragment
holds the queries and separators as nested parts, and `join([], sep)`
compiles to an empty string with no parameters. -/
def SqlQuery.join : List Query → Query → Query
  | [], _ => []
  | [q], _ => [QueryPart.query q]
  | q :: rest, d => QueryPart.query q :: QueryPart.query d :: SqlQuery.join rest d

/-- The fragment `sql\x60 AND \x60` used as the filter separator. -/
def sqlAnd : Query := Query.createFromTemplateString [" AND "] []

/-- The fragment `sql\x60, \x60` used as the field/value separator. -/
def sqlComma : Query := Query.createFromTemplateString [", "] []

/-- A repository configuration: table name, primary-key column name, and
the optional persistent scope fragment. (The database handle and model
constructor are passed separately; the model constructor is used only as a
prototype source and carries no data.) -/
structure Repo where
  table : String
  primaryKey : String
  scope : Option Query

/-- `createModelFromAttributes`: `Object.create(this.model.prototype)`
followed by `Object.assign(model, attributes)` produces a fresh object
carrying exactly the attribute fields (prototype behaviour is out of
scope). -/
def createModelFromAttributes (attributes : Row) : Row := attributes

/-- The filter `sql\x60${ident pk} = ${pkv}\x60`: the `QueryIdentifier` is not a
`Query`, so the template constructor wraps it as a parameter carrying an
identifier value. -/
def pkFilter (r : Repo) (pkv : Value) : Query :=
  Query.createFromTemplateString ["", " = ", ""]
    [.value (.vIdent r.primaryKey), .value pkv]

/-- The wrapper `sql\x60(${q})\x60` applied to the scope and to the search
`where` option. -/
def parenWrap (q : Query) : Query :=
  Query.createFromTemplateString ["(", ")"] [.query q]

/-- The filter list of `get` (lines 216-221): the primary-key filter, then
the parenthesised scope when one is configured. -/
def getFilters (r : Repo) (pkv : Value) : List Query :=
  [pkFilter r pkv] ++
    (match r.scope with
     | some s => [parenWrap s]
     | none => [])

/-- The `postfix` clause of `get`/`search`: `postfix ? sql\x60${postfix}\x60 : sql\x60\x60`. -/
def postfixClauseQ : Option Query → Query
  | some q => Query.createFromTemplateString ["", ""] [.query q]
  | none => Query.createFromTemplateString [""] []

/-- The select clause: `select ? sql\x60${select}\x60 : sql\x60*\x60`. -/
def selectClauseQ : Option Query → Query
  | some q => Query.createFromTemplateString ["", ""] [.query q]
  | none => Query.createFromTemplateString ["*"] []

/-- The SELECT issued by `get` (lines 227-232). -/
def getQuery (r : Repo) (pkv : Value) (postfixQ selectQ : Option Query) : Query :=
  Query.createFromTemplateString
    ["\n\t\t\tSELECT ", "\n\t\t\tFROM ", "\n\t\t\tWHERE ", "\n\t\t\t", ";\n\t\t"]
    [.query (selectClauseQ selectQ), .value (.vIdent r.table),
     .query (SqlQuery.join (getFilters r pkv) sqlAnd),
     .query (postfixClauseQ postfixQ)]

/-- The filter list of `search` (lines 245-251): the parenthesised scope
when configured, then the parenthesised `where` option when supplied. -/
def searchFilters (r : Repo) (whereQ : Option Query) : List Query :=
  (match r.scope with
   | some s => [parenWrap s]
   | none => []) ++
  (match whereQ with
   | some w => [parenWrap w]
   | none => [])

/-- The WHERE clause of `search`: `filters.length !== 0 ?
sql\x60WHERE ${join(filters, AND)}\x60 : sql\x60\x60`. -/
def searchWhereClause (r : Repo) (whereQ : Option Query) : Query :=
  let filters := searchFilters r whereQ
  if filters.length ≠ 0 then
    Query.createFromTemplateString ["WHERE ", ""]
      [.query (SqlQuery.join filters sqlAnd)]
  else Query.createFromTemplateString [""] []

/-- The ORDER BY clause of `search`. -/
def orderByClauseQ : Option Query → Query
  | some q => Query.createFromTemplateString ["ORDER BY ", ""] [.query q]
  | none => Query.createFromTemplateString [""] []

/-- The GROUP BY clause of `search`. -/
def groupByClauseQ : Option Query → Query
  | some q => Query.createFromTemplateString ["GROUP BY ", ""] [.query q]
  | none => Query.createFromTemplateString [""] []

/-- Interpolating an optional query option: a present fragment is spliced
as a nested query, an absent one interpolates JavaScript `undefined`,
which the template constructor wraps as a bound parameter. -/
def jsOpt : Option Query → TValue
  | some q => .query q
  | none => .value .vUndefined

/-- The FROM clause of `search` (lines 263-264). The source condition tests
the `select` option: `select ? sql\x60${from}\x60 : sql\x60${ident table}\x60`. -/
def searchFromClause (r : Repo) (selectQ fromQ : Option Query) : Query :=
  if selectQ.isSome then
    Query.createFromTemplateString ["", ""] [jsOpt fromQ]
  else
    Query.createFromTemplateString ["", ""] [.value (.vIdent r.table)]

/-- The SELECT issued by `search` (lines 266-272, second implementation). -/
def searchQuery (r : Repo) (fromQ postfixQ whereQ groupByQ orderByQ selectQ : Option Query) : Query :=
  Query.createFromTemplateString
    ["\n\t\t\tSELECT ", "\n\t\t\tFROM ", " ", "\n\t\t\t", "\n\t\t\t", "\n\t\t\t", "\n\t\t"]
    [.query (selectClauseQ selectQ), .query (searchFromClause r selectQ fromQ),
     .query (postfixClauseQ postfixQ), .query (searchWhereClause r whereQ),
     .query (groupByClauseQ groupByQ), .query (orderByClauseQ orderByQ)]

/-- The identifier fragments `sql\x60${ident key}\x60` for the inserted columns. -/
def insertFields (attributes : Row) : List Query :=
  attributes.map (fun kv =>
    Query.createFromTemplateString ["", ""] [.value (.vIdent kv.1)])

/-- The value fragments `sql\x60${val}\x60` for the inserted values. -/
def insertValues (attributes : Row) : List Query :=
  attributes.map (fun kv =>
    Query.createFromTemplateString ["", ""] [.value kv.2])

/-- The INSERT issued by `create` (lines 287-290). -/
def insertQuery (r : Repo) (attributes : Row) : Query :=
  Query.createFromTemplateString
    ["\n\t\t\t\tINSERT INTO ", " (", ")\n\t\t\t\tVALUES (", ")\n\t\t\t"]
    [.value (.vIdent r.table),
     .query (SqlQuery.join (insertFields attributes) sqlComma),
     .query (SqlQuery.join (insertValues attributes) sqlComma)]

/-- The follow-up SELECT issued by `create` for a scalar insert result
(lines 293-297): `SELECT * FROM table WHERE pk = data`. -/
def createSelectQuery (r : Repo) (v : Value) : Query :=
  Query.createFromTemplateString
    ["\n\t\t\t\t\tSELECT *\n\t\t\t\t\tFROM ", "\n\t\t\t\t\tWHERE ", " = ", ";\n\t\t\t\t"]
    [.value (.vIdent r.table), .value (.vIdent r.primaryKey), .value v]

/-- The assignment fragments `sql\x60${ident key} = ${value}\x60` of `update`. -/
def updateFieldQueries (attributes : Row) : List Query :=
  attributes.map (fun kv =>
    Query.createFromTemplateString ["", " = ", ""]
      [.value (.vIdent kv.1), .value kv.2])

/-- The UPDATE issued by `update` (lines 318-322): SET clauses joined by
commas, filtered on `pk = model[pk]` only. -/
def updateQuery (r : Repo) (m attributes : Row) : Query :=
  Query.createFromTemplateString
    ["\n\t\t\t\tUPDATE ", "\n\t\t\t\tSET ", "\n\t\t\t\tWHERE ", " = ", "\n\t\t\t"]
    [.value (.vIdent r.table),
     .query (SqlQuery.join (updateFieldQueries attributes) sqlComma),
     .value (.vIdent r.primaryKey), .value (rowGet m r.primaryKey)]

/-- The confirmatory SELECT issued by `update` when the driver result is
null (lines 325-329). -/
def updateSelectQuery (r : Repo) (m : Row) : Query :=
  Query.createFromTemplateString
    ["\n\t\t\t\t\tSELECT *\n\t\t\t\t\tFROM ", "\n\t\t\t\t\tWHERE ", " = ", ";\n\t\t\t\t"]
    [.value (.vIdent r.table), .value (.vIdent r.primaryKey),
     .value (rowGet m r.primaryKey)]

/-- The DELETE issued by `delete` (lines 349-352): filtered on
`pk = model[pk]` only. -/
def deleteQuery (r : Repo) (m : Row) : Query :=
  Query.createFromTemplateString
    ["\n\t\t\tDELETE FROM ", "\n\t\t\tWHERE ", " = ", ";\n\t\t"]
    [.value (.vIdent r.table), .value (.vIdent r.primaryKey),
     .value (rowGet m r.primaryKey)]

/-- The first element returned by `insertAndGet`: a scalar id (string or
number), a full row, or `null`/`undefined` (the driver-response shapes the
spec names). -/
inductive InsertDatum where
  | scalarStr (s : String)
  | scalarNum (n : Int)
  | row (r : Row)
  | nullDatum
  | undef
deriving DecidableEq

/-- The guard `typeof data === 'string' || typeof data === 'number'`. -/
def InsertDatum.isScalar : InsertDatum → Bool
  | .scalarStr _ => true
  | .scalarNum _ => true
  | _ => false

/-- The scalar as a `Value` (meaningful only when `isScalar`). -/
def InsertDatum.scalarValue : InsertDatum → Value
  | .scalarStr s => .vStr s
  | .scalarNum n => .vNum n
  | .row _ => .vUndefined
  | .nullDatum => .vNull
  | .undef => .vUndefined

/-- JavaScript truthiness of the insert datum, deciding `data || attributes`. -/
def InsertDatum.jsTruthy : InsertDatum → Bool
  | .row _ => true
  | .nullDatum => false
  | .undef => false
  | .scalarStr s => !s.isEmpty
  | .scalarNum n => n != 0

/-- `createModelFromAttributes` applied to an insert datum:
`Object.assign` from a row copies its fields, from `null`/`undefined` it
copies nothing. (The scalar cases are unreachable: scalars are diverted to
the refetch branch before this point.) -/
def createModelFromDatum : InsertDatum → Row
  | .row rr => rr
  | _ => []

/-- The errors `CrudRepository` raises itself. -/
inductive RepoError where
  | notFound (msg : String)
  | tooManyResults (msg : String)
deriving DecidableEq

/-- The `get`/`update` not-found message. -/
def msgNotFound (r : Repo) (v : Value) : String :=
  "Object not found in table " ++ r.table ++ " for " ++ r.primaryKey ++ " = " ++ jsDisplay v

/-- The `get`/`update` too-many-results message. -/
def msgTooMany (r : Repo) (v : Value) : String :=
  "Multiple objects found in table " ++ r.table ++ " for " ++ r.primaryKey ++ " = " ++ jsDisplay v

/-- The `create` not-found message after a vanished row. -/
def msgNotFoundAfterInsert (r : Repo) (v : Value) : String :=
  "Object not found in table " ++ r.table ++ " after insert (got " ++ r.primaryKey ++ " = " ++ jsDisplay v ++ ")"

/-- The `update` not-found message after a null driver result. -/
def msgNotFoundAfterUpdate (r : Repo) (v : Value) : String :=
  "Object not found in table " ++ r.table ++ " after update (got " ++ r.primaryKey ++ " = " ++ jsDisplay v ++ ")"

/-- The external database collaborator, as pure response functions:
`query` returns rows, `insertAndGet` returns an array whose first element
is the insert datum, `updateAndGet` returns rows or null. The `sequence`
wrapper is opaque serialization and is modelled as applying the callback
to the same database. -/
structure DatabaseInterface where
  query : Query → List Row
  insertAndGet : Query → List InsertDatum
  updateAndGet : Query → Option (List Row)

/-- `CrudRepository.get` (lines 215-242, identical in both
implementations): zero rows raise NotFound, more than one raise
TooManyResults, exactly one is mapped to a model. -/
def CrudRepository.get (r : Repo) (db : DatabaseInterface) (pkv : Value)
    (postfixQ selectQ : Option Query) : Except RepoError Row :=
  let results := db.query (getQuery r pkv postfixQ selectQ)
  if results.length = 0 then
    .error (.notFound (msgNotFound r pkv))
  else if 1 < results.length then
    .error (.tooManyResults (msgTooMany r pkv))
  else
    .ok (createModelFromAttributes (results.headD []))

/-- `CrudRepository.search` (second implementation, lines 244-279): maps
every returned row to a model, with no row-count errors. -/
def CrudRepository.search (r : Repo) (db : DatabaseInterface)
    (fromQ postfixQ whereQ groupByQ orderByQ selectQ : Option Query) : List Row :=
  (db.query (searchQuery r fromQ postfixQ whereQ groupByQ orderByQ selectQ)).map
    createModelFromAttributes

/-- The refetch-or-fallback tail shared by both `create` implementations up
to the final else branch: the scalar branch (lines 292-303) refetches by
primary key. -/
def createScalarRefetch (r : Repo) (db : DatabaseInterface) (v : Value) :
    Except RepoError Row :=
  let results := db.query (createSelectQuery r v)
  if results.length = 0 then
    .error (.notFound (msgNotFoundAfterInsert r v))
  else
    .ok (createModelFromAttributes (results.headD []))

/-- `CrudRepository.create`, second implementation (lines 281-308): the
else branch falls back to `data || attributes`. -/
def CrudRepository2.create (r : Repo) (db : DatabaseInterface)
    (attributes : Row) : Except RepoError Row :=
  let data := (db.insertAndGet (insertQuery r attributes)).headD .undef
  if data.isScalar then
    createScalarRefetch r db data.scalarValue
  else
    .ok (createModelFromDatum (if data.jsTruthy then data else .row attributes))

/-- `CrudRepository.create`, first implementation (lines 97-124): the else
branch builds the model from `data` directly, with no fallback to the
submitted attributes. -/
def CrudRepository1.create (r : Repo) (db : DatabaseInterface)
    (attributes : Row) : Except RepoError Row :=
  let data := (db.insertAndGet (insertQuery r attributes)).headD .undef
  if data.isScalar then
    createScalarRefetch r db data.scalarValue
  else
    .ok (createModelFromDatum data)

/-- The rows an `update` call settles on (lines 318-341, identical logic in
both implementations): a null driver result triggers the confirmatory
SELECT, which raises NotFound exactly on zero rows; a direct rows result
raises NotFound on zero rows and TooManyResults on more than one. -/
def updateRows (r : Repo) (db : DatabaseInterface) (m attributes : Row) :
    Except RepoError (List Row) :=
  match db.updateAndGet (updateQuery r m attributes) with
  | none =>
      let rs := db.query (updateSelectQuery r m)
      if rs.length = 0 then
        .error (.notFound (msgNotFoundAfterUpdate r (rowGet m r.primaryKey)))
      else .ok rs
  | some rs =>
      if rs.length = 0 then
        .error (.notFound (msgNotFound r (rowGet m r.primaryKey)))
      else if 1 < rs.length then
        .error (.tooManyResults (msgTooMany r (rowGet m r.primaryKey)))
      else .ok rs

/-- A heap of model objects; a model is a reference (index) into it, so
that in-place mutation and fresh allocation are distinguishable. -/
abbrev Store := List Row

/-- `CrudRepository.update`, second implementation (lines 310-346): the
result row is `Object.assign`ed onto the argument model itself, which is
returned. -/
def CrudRepository2.update (r : Repo) (db : DatabaseInterface) (σ : Store)
    (mref : Nat) (attributes : Row) : Except RepoError (Store × Nat) :=
  let m := σ.getD mref []
  (updateRows r db m attributes).map (fun rs =>
    (σ.set mref (objAssign m (rs.headD [])), mref))

/-- `CrudRepository.update`, first implementation (lines 126-163): a fresh
model is materialized from the argument (`createModelFromAttributes(model)`),
the result row is assigned onto the fresh object, and that object is
returned; the argument is left unchanged. -/
def CrudRepository1.update (r : Repo) (db : DatabaseInterface) (σ : Store)
    (mref : Nat) (attributes : Row) : Except RepoError (Store × Nat) :=
  let m := σ.getD mref []
  (updateRows r db m attributes).map (fun rs =>
    (σ ++ [objAssign m (rs.headD [])], σ.length))

/-- `CrudRepository.delete` (lines 348-353, identical in both
implementations): one DELETE by primary key, result ignored, nothing
raised. -/
def CrudRepository.delete (r : Repo) (db : DatabaseInterface) (m : Row) :
    Except RepoError Unit :=
  let _ := db.query (deleteQuery r m)
  .ok ()

/-! Concrete fixtures used in counterexamples and witnesses. -/

/-- A repository over table `users` with primary key `id` and no scope. -/
def rUsers : Repo := ⟨"users", "id", none⟩

/-- A scope fragment `deleted = 0`. -/
def scopeQ : Query := Query.createFromTemplateString ["deleted = ", ""] [.value (.vNum 0)]

/-- The `users` repository configured with the scope `deleted = 0`. -/
def rScoped : Repo := ⟨"users", "id", some scopeQ⟩

/-- A sample row as a primary-key lookup would return it. -/
def row7 : Row := [("id", Value.vNum 7), ("name", Value.vStr "Ada")]

/-- The sample row after updating its `name` column. -/
def row7upd : Row := [("id", Value.vNum 7), ("name", Value.vStr "Zoe")]

/-- A fragment tree with a nested fragment holding one bound parameter. -/
def exNested : Query :=
  [QueryPart.str "A ",
   QueryPart.query [QueryPart.str "x", QueryPart.queryParam (Value.vNum 42), QueryPart.str "y"],
   QueryPart.str " B"]

/-- A placeholder-naming function in the `$0`, `$1`, ... style. -/
def dollarPh (i : Nat) : String := "$" ++ toString i

/-- The fragment `COUNT(*)` used as a custom select clause. -/
def countStar : Query := [QueryPart.str "COUNT(*)"]

/-- A driver returning one row to every query. -/
def dbOne : DatabaseInterface := ⟨fun _ => [row7], fun _ => [], fun _ => none⟩

/-- A driver returning no rows, and an insert result whose first element is
`undefined`. -/
def dbEmpty : DatabaseInterface := ⟨fun _ => [], fun _ => [.undef], fun _ => none⟩

/-- A driver returning two rows to every query. -/
def dbTwo : DatabaseInterface := ⟨fun _ => [row7, row7], fun _ => [], fun _ => none⟩

/-- A driver whose `updateAndGet` signals an unknown match count and whose
confirmatory select finds nothing. -/
def dbNone : DatabaseInterface := ⟨fun _ => [], fun _ => [], fun _ => none⟩

/-- A driver whose insert yields the scalar id 7 and whose follow-up select
finds the row. -/
def dbScalar : DatabaseInterface := ⟨fun _ => [row7], fun _ => [.scalarNum 7], fun _ => none⟩

/-- A driver whose insert yields the scalar id 7 but whose follow-up select
finds nothing (the row vanished). -/
def dbScalarEmpty : DatabaseInterface := ⟨fun _ => [], fun _ => [.scalarNum 7], fun _ => none⟩

/-- A driver whose `updateAndGet` returns exactly one updated row. -/
def dbUpd : DatabaseInterface := ⟨fun _ => [], fun _ => [], fun _ => some [row7upd]⟩

/-! Theorems settling the claims. -/

/-- C1 counterexample: with the scope `deleted = 0` configured, the UPDATE
and DELETE issued by `update` and `delete` are exactly the queries issued
without any scope — their WHERE clause does not include the scope — while
`get`'s filter list does grow from one filter to two. This falsifies the
claim that every operation AND-combines the scope into its filter. -/
theorem scope_not_applied_to_update_delete_cex :
    updateQuery rScoped [("id", Value.vNum 7)] [("name", Value.vStr "x")] =
      updateQuery rUsers [("id", Value.vNum 7)] [("name", Value.vStr "x")] ∧
    deleteQuery rScoped [("id", Value.vNum 7)] = deleteQuery rUsers [("id", Value.vNum 7)] ∧
    (getFilters rScoped (Value.vNum 7)).length = 2 ∧
    (getFilters rUsers (Value.vNum 7)).length = 1 :=
  ⟨rfl, rfl, rfl, rfl⟩

/-- C1 amended: when a scope is configured, `get` AND-combines it after the
primary-key filter and `search` AND-combines it before the `where` option,
but `update` and `delete` ignore the scope entirely: their queries are
identical with and without it, as is `create`'s INSERT. -/
theorem scope_applied_only_to_get_and_search (t pk : String) (s : Query)
    (m attributes : Row) (pkv : Value) (w : Query) :
    getFilters ⟨t, pk, some s⟩ pkv = [pkFilter ⟨t, pk, some s⟩ pkv, parenWrap s] ∧
    searchFilters ⟨t, pk, some s⟩ (some w) = [parenWrap s, parenWrap w] ∧
    updateQuery ⟨t, pk, some s⟩ m attributes = updateQuery ⟨t, pk, none⟩ m attributes ∧
    deleteQuery ⟨t, pk, some s⟩ m = deleteQuery ⟨t, pk, none⟩ m ∧
    insertQuery ⟨t, pk, some s⟩ attributes = insertQuery ⟨t, pk, none⟩ attributes :=
  ⟨rfl, rfl, rfl, rfl, rfl⟩

/-- C2: compiling a tree holding one nested fragment with one bound
parameter. The compiler of src/Query.ts does not recurse into the nested
fragment: it string-coerces the nested query object into the sql text and
returns an empty parameter list, although the tree contains one
non-identifier parameter — contradicting the claimed depth-first
flattening. -/
theorem compile_drops_nested_fragment_params :
    Query.compile exNested dollarPh = ⟨"A [object Object] B", []⟩ ∧
    nonIdentParamCount exNested = 1 :=
  ⟨by decide, by simp [exNested, nonIdentParamCount, Value.isIdent]⟩

/-- C3: the FROM clause of `search` is chosen by testing the `select`
option, not the `from` option: with a select supplied and from omitted it
binds `undefined` as a parameter instead of using the table identifier,
and a supplied from is ignored when select is absent. -/
theorem search_from_clause_ignores_from_option :
    searchFromClause rUsers (some countStar) none =
      [QueryPart.str "", QueryPart.queryParam Value.vUndefined, QueryPart.str ""] ∧
    searchFromClause rUsers none none =
      [QueryPart.str "", QueryPart.queryParam (Value.vIdent "users"), QueryPart.str ""] ∧
    searchFromClause rUsers none (some [QueryPart.str "accounts"]) =
      [QueryPart.str "", QueryPart.queryParam (Value.vIdent "users"), QueryPart.str ""] :=
  ⟨rfl, rfl, rfl⟩

/-- C4: `get` returns the single row's model on a one-row response, raises
NotFound on an empty response, and raises TooManyResults on a response of
more than one row. -/
theorem get_row_count_behavior (r : Repo) (db : DatabaseInterface) (pkv : Value)
    (postfixQ selectQ : Option Query) :
    (db.query (getQuery r pkv postfixQ selectQ) = [] →
       CrudRepository.get r db pkv postfixQ selectQ =
         .error (.notFound (msgNotFound r pkv))) ∧
    (∀ row0, db.query (getQuery r pkv postfixQ selectQ) = [row0] →
       CrudRepository.get r db pkv postfixQ selectQ =
         .ok (createModelFromAttributes row0)) ∧
    (∀ rs, db.query (getQuery r pkv postfixQ selectQ) = rs → 1 < rs.length →
       CrudRepository.get r db pkv postfixQ selectQ =
         .error (.tooManyResults (msgTooMany r pkv))) := by
  refine ⟨fun h => ?_, fun row0 h => ?_, fun rs h h2 => ?_⟩
  · simp [CrudRepository.get, h]
  · simp [CrudRepository.get, h]
  · have h1 : rs ≠ [] := by rintro rfl; simp at h2
    simp [CrudRepository.get, h, h1, h2]

/-- C4 witness: the three behaviors at concrete drivers. -/
theorem get_row_count_behavior_witness :
    CrudRepository.get rUsers dbOne (Value.vNum 7) none none =
      .ok (createModelFromAttributes row7) ∧
    CrudRepository.get rUsers dbEmpty (Value.vNum 7) none none =
      .error (.notFound (msgNotFound rUsers (Value.vNum 7))) ∧
    CrudRepository.get rUsers dbTwo (Value.vNum 7) none none =
      .error (.tooManyResults (msgTooMany rUsers (Value.vNum 7))) :=
  ⟨(get_row_count_behavior rUsers dbOne (Value.vNum 7) none none).2.1 row7 rfl,
   (get_row_count_behavior rUsers dbEmpty (Value.vNum 7) none none).1 rfl,
   (get_row_count_behavior rUsers dbTwo (Value.vNum 7) none none).2.2
     [row7, row7] rfl (by decide)⟩

/-- C5: a null `updateAndGet` result triggers the confirmatory select and
`update` raises NotFound exactly when it returns zero rows; a direct rows
result raises NotFound on zero rows, TooManyResults on more than one, and
otherwise succeeds. -/
theorem update_driver_shapes_behavior (r : Repo) (db : DatabaseInterface)
    (σ : Store) (i : Nat) (attributes m : Row) (hm : σ.getD i [] = m) :
    (db.updateAndGet (updateQuery r m attributes) = none →
       ((db.query (updateSelectQuery r m) = [] →
           CrudRepository2.update r db σ i attributes =
             .error (.notFound (msgNotFoundAfterUpdate r (rowGet m r.primaryKey)))) ∧
        (∀ r0 rest, db.query (updateSelectQuery r m) = r0 :: rest →
           CrudRepository2.update r db σ i attributes =
             .ok (σ.set i (objAssign m r0), i)))) ∧
    (∀ rs, db.updateAndGet (updateQuery r m attributes) = some rs →
       ((rs = [] →
           CrudRepository2.update r db σ i attributes =
             .error (.notFound (msgNotFound r (rowGet m r.primaryKey)))) ∧
        (1 < rs.length →
           CrudRepository2.update r db σ i attributes =
             .error (.tooManyResults (msgTooMany r (rowGet m r.primaryKey)))) ∧
        (∀ r0, rs = [r0] →
           CrudRepository2.update r db σ i attributes =
             .ok (σ.set i (objAssign m r0), i)))) := by
  have hm2 : σ[i]?.getD [] = m := by
    simpa only [List.getD_eq_getElem?_getD] using hm
  refine ⟨fun hn => ⟨fun h => ?_, fun r0 rest h => ?_⟩,
          fun rs hs => ⟨fun h => ?_, fun h => ?_, fun r0 h => ?_⟩⟩
  · simp [CrudRepository2.update, updateRows, Except.map, hm2, hn, h]
  · simp [CrudRepository2.update, updateRows, Except.map, hm2, hn, h]
  · simp [CrudRepository2.update, updateRows, Except.map, hm2, hs, h]
  · have h0 : rs ≠ [] := by rintro rfl; simp at h
    simp [CrudRepository2.update, updateRows, Except.map, hm2, hs, h0, h]
  · simp [CrudRepository2.update, updateRows, Except.map, hm2, hs, h]

/-- C5 witness: a null driver result with an empty confirmatory select
raises NotFound, and a direct one-row result succeeds. -/
theorem update_driver_shapes_behavior_witness :
    CrudRepository2.update rUsers dbNone [row7] 0 [("name", Value.vStr "Zoe")] =
      .error (.notFound (msgNotFoundAfterUpdate rUsers (rowGet row7 rUsers.primaryKey))) ∧
    CrudRepository2.update rUsers dbUpd [row7] 0 [("name", Value.vStr "Zoe")] =
      .ok ([row7].set 0 (objAssign row7 row7upd), 0) :=
  ⟨((update_driver_shapes_behavior rUsers dbNone [row7] 0
      [("name", Value.vStr "Zoe")] row7 rfl).1 rfl).1 rfl,
   (((update_driver_shapes_behavior rUsers dbUpd [row7] 0
      [("name", Value.vStr "Zoe")] row7 rfl).2 [row7upd] rfl).2.2) row7upd rfl⟩

/-- C6: when the first insert result is a scalar, `create` issues the
follow-up select on the primary key equal to that scalar, raises NotFound
when it returns zero rows, and returns the fetched row's model when it
returns exactly one row. -/
theorem create_scalar_id_refetch (r : Repo) (db : DatabaseInterface)
    (attributes : Row) (d : InsertDatum)
    (hd : (db.insertAndGet (insertQuery r attributes)).headD .undef = d)
    (hs : d.isScalar = true) :
    (db.query (createSelectQuery r d.scalarValue) = [] →
       CrudRepository2.create r db attributes =
         .error (.notFound (msgNotFoundAfterInsert r d.scalarValue))) ∧
    (∀ row0, db.query (createSelectQuery r d.scalarValue) = [row0] →
       CrudRepository2.create r db attributes =
         .ok (createModelFromAttributes row0)) := by
  have hd2 : (db.insertAndGet (insertQuery r attributes)).head?.getD InsertDatum.undef = d := by
    simpa only [List.headD_eq_head?] using hd
  refine ⟨fun h => ?_, fun row0 h => ?_⟩
  · simp [CrudRepository2.create, hd2, hs, createScalarRefetch, h]
  · simp [CrudRepository2.create, hd2, hs, createScalarRefetch, h]

/-- C6 witness: a scalar id 7 with a found row returns that row's model;
with an empty follow-up select it raises NotFound. -/
theorem create_scalar_id_refetch_witness :
    CrudRepository2.create rUsers dbScalar [("name", Value.vStr "Ada")] =
      .ok (createModelFromAttributes row7) ∧
    CrudRepository2.create rUsers dbScalarEmpty [("name", Value.vStr "Ada")] =
      .error (.notFound (msgNotFoundAfterInsert rUsers
        (InsertDatum.scalarValue (InsertDatum.scalarNum 7)))) :=
  ⟨(create_scalar_id_refetch rUsers dbScalar [("name", Value.vStr "Ada")]
      (.scalarNum 7) rfl rfl).2 row7 rfl,
   (create_scalar_id_refetch rUsers dbScalarEmpty [("name", Value.vStr "Ada")]
      (.scalarNum 7) rfl rfl).1 rfl⟩

/-- C7 counterexample: the first implementation's `create` has no fallback
to the submitted attributes — with the driver yielding `undefined`, it
returns a model with no fields rather than echoing the attributes. -/
theorem create_fallback_missing_in_first_impl_cex :
    CrudRepository1.create rUsers dbEmpty [("name", Value.vStr "Alice")] = .ok [] ∧
    ([("name", Value.vStr "Alice")] : Row) ≠ [] :=
  ⟨rfl, by decide⟩

/-- C7 amended: in the second implementation, when the first insert result
is `null` or `undefined`, `create` returns a model echoing exactly the
submitted attributes. -/
theorem create_echoes_attributes_second_impl (r : Repo) (db : DatabaseInterface)
    (attributes : Row)
    (h : (db.insertAndGet (insertQuery r attributes)).headD .undef = InsertDatum.undef ∨
         (db.insertAndGet (insertQuery r attributes)).headD .undef = InsertDatum.nullDatum) :
    CrudRepository2.create r db attributes = .ok attributes := by
  have hd2 : (db.insertAndGet (insertQuery r attributes)).head?.getD InsertDatum.undef = InsertDatum.undef ∨
      (db.insertAndGet (insertQuery r attributes)).head?.getD InsertDatum.undef = InsertDatum.nullDatum := by
    simpa only [List.headD_eq_head?] using h
  rcases hd2 with h2 | h2 <;>
    simp [CrudRepository2.create, h2, InsertDatum.isScalar, InsertDatum.jsTruthy,
      createModelFromDatum]

/-- C7 witness: the second implementation echoes the submitted attributes
when the driver yields `undefined`. -/
theorem create_echoes_attributes_second_impl_witness :
    CrudRepository2.create rUsers dbEmpty [("name", Value.vStr "Alice")] =
      .ok [("name", Value.vStr "Alice")] :=
  create_echoes_attributes_second_impl rUsers dbEmpty
    [("name", Value.vStr "Alice")] (Or.inl rfl)

/-- C8: `delete` issues its DELETE and succeeds for every driver response,
including a driver whose DELETE matched zero rows — it never raises
NotFound or TooManyResults. -/
theorem delete_never_raises (r : Repo) (db : DatabaseInterface) (m : Row) :
    CrudRepository.delete r db m = .ok () :=
  rfl

/-- A template interpolation never yields a literal part. -/
theorem toPart_not_lit (p : TValue) : isLitPart p.toPart = false := by
  cases p <;> rfl

/-- A string part is a literal part. -/
theorem isLitPart_str (s : String) : isLitPart (QueryPart.str s) = true := rfl

/-- The template tail alternates value/literal pairs. -/
theorem buildTail_altTail (ss : List String) :
    ∀ ps : List TValue, ps.length = ss.length → altTail (buildTail ps ss) = true := by
  induction ss with
  | nil => intro ps _; cases ps <;> rfl
  | cons s ss ih =>
      intro ps h
      cases ps with
      | nil => simp at h
      | cons p ps =>
          simp only [buildTail, altTail, toPart_not_lit]
          simp only [List.length_cons, Nat.add_right_cancel_iff] at h
          simp [ih ps h, isLitPart]

/-- The template tail holds one literal per string. -/
theorem buildTail_litCount (ss : List String) :
    ∀ ps : List TValue, ps.length = ss.length →
      litCount (buildTail ps ss) = ss.length := by
  induction ss with
  | nil => intro ps _; cases ps <;> rfl
  | cons s ss ih =>
      intro ps h
      cases ps with
      | nil => simp at h
      | cons p ps =>
          simp only [List.length_cons, Nat.add_right_cancel_iff] at h
          simp [buildTail, litCount, toPart_not_lit, isLitPart_str, ih ps h]
          omega

/-- The template tail holds one non-literal per parameter. -/
theorem buildTail_nonLitCount (ss : List String) :
    ∀ ps : List TValue, ps.length = ss.length →
      nonLitCount (buildTail ps ss) = ps.length := by
  induction ss with
  | nil => intro ps h; cases ps with
      | nil => rfl
      | cons p ps => simp at h
  | cons s ss ih =>
      intro ps h
      cases ps with
      | nil => simp at h
      | cons p ps =>
          simp only [List.length_cons, Nat.add_right_cancel_iff] at h
          simp [buildTail, nonLitCount, toPart_not_lit, isLitPart_str, ih ps h]
          omega

/-- C9: every fragment built by `createFromTemplateString` from a
tagged-template call (one more literal than parameters) alternates
literals with parameter/nested parts, beginning with a literal, and its
literal count equals its parameter/nested count plus one. -/
theorem template_fragment_invariant (strings : List String) (params : List TValue)
    (h : strings.length = params.length + 1) :
    alternates (Query.createFromTemplateString strings params) = true ∧
    litCount (Query.createFromTemplateString strings params) =
      nonLitCount (Query.createFromTemplateString strings params) + 1 := by
  cases strings with
  | nil => simp at h
  | cons s0 rest =>
      simp only [List.length_cons, Nat.add_right_cancel_iff] at h
      constructor
      · simp [Query.createFromTemplateString, alternates, isLitPart,
          buildTail_altTail rest params h.symm]
      · simp [Query.createFromTemplateString, litCount, nonLitCount, isLitPart,
          buildTail_litCount rest params h.symm,
          buildTail_nonLitCount rest params h.symm]
        omega

/-- C9 witness: the invariant at a concrete template. -/
theorem template_fragment_invariant_witness :
    alternates (Query.createFromTemplateString ["a = ", ""] [TValue.value (Value.vNum 3)]) = true ∧
    litCount (Query.createFromTemplateString ["a = ", ""] [TValue.value (Value.vNum 3)]) =
      nonLitCount (Query.createFromTemplateString ["a = ", ""] [TValue.value (Value.vNum 3)]) + 1 :=
  template_fragment_invariant ["a = ", ""] [TValue.value (Value.vNum 3)] (by decide)

/-- C10: on a successful update the second implementation writes the
assigned fields back into the very store cell of the argument model and
returns the same reference, allocating nothing, whereas the first
implementation allocates a fresh model, returns the fresh reference, and
leaves the argument's cell unchanged. -/
theorem update_mutates_argument_in_place (r : Repo) (db : DatabaseInterface)
    (σ : Store) (i : Nat) (attributes : Row) (rs : List Row)
    (h : updateRows r db (σ.getD i []) attributes = .ok rs) (hi : i < σ.length) :
    CrudRepository2.update r db σ i attributes =
      .ok (σ.set i (objAssign (σ.getD i []) (rs.headD [])), i) ∧
    (σ.set i (objAssign (σ.getD i []) (rs.headD []))).length = σ.length ∧
    CrudRepository1.update r db σ i attributes =
      .ok (σ ++ [objAssign (σ.getD i []) (rs.headD [])], σ.length) ∧
    (σ ++ [objAssign (σ.getD i []) (rs.headD [])]).getD i [] = σ.getD i [] ∧
    i ≠ σ.length := by
  have h2 : updateRows r db (σ[i]?.getD []) attributes = .ok rs := by
    simpa only [List.getD_eq_getElem?_getD] using h
  refine ⟨?_, ?_, ?_, ?_, ?_⟩
  · simp [CrudRepository2.update, Except.map, h2]
  · simp
  · simp [CrudRepository1.update, Except.map, h2]
  · exact List.getD_append _ _ _ _ hi
  · omega

/-- C10 witness: the two behaviors at a concrete one-row update. -/
theorem update_mutates_argument_in_place_witness :
    CrudRepository2.update rUsers dbUpd [row7] 0 [("name", Value.vStr "Zoe")] =
      .ok ([row7].set 0 (objAssign ([row7].getD 0 []) ([row7upd].headD [])), 0) ∧
    ([row7].set 0 (objAssign ([row7].getD 0 []) ([row7upd].headD []))).length = [row7].length ∧
    CrudRepository1.update rUsers dbUpd [row7] 0 [("name", Value.vStr "Zoe")] =
      .ok ([row7] ++ [objAssign ([row7].getD 0 []) ([row7upd].headD [])], [row7].length) ∧
    ([row7] ++ [objAssign ([row7].getD 0 []) ([row7upd].headD [])]).getD 0 [] = [row7].getD 0 [] ∧
    0 ≠ [row7].length :=
  update_mutates_argument_in_place rUsers dbUpd [row7] 0
    [("name", Value.vStr "Zoe")] [row7upd] rfl (by decide)

end KissOrm
